import Mathlib

/-!
# Tool and prompt registration of the MCP language server (`tools.go`)

A shallow embedding of `registerPrompts` and `registerTools` and of the ten
handler closures they register.

* A Go `error` is an optional `GoError` (`none` is `nil`); only its `Error()`
  text is observable through `fmt.Errorf("...%v", err)`.
* A Go function returning `(string, error)` returns a pair `String × Option GoError`;
  the handlers test the error component first, exactly as the source does.
* The operations of package `internal/tools` (`ReadDefinition`, `ApplyTextEdits`, ...)
  act on the language-server session and the file system.  They are fields of a
  `Backend σ`, state-passing functions over an arbitrary state `σ`.
* The `mcp_golang` server is a `Server ρ σ`: `RegisterTool` and `RegisterPrompt`
  are state-passing functions over an arbitrary registry state `ρ` that may fail.
-/

namespace McpLanguageServer

/-! ## Go errors and `fmt` -/

/-- A non-nil Go `error` value, observed through its `Error()` text. -/
structure GoError where
  msg : String
  deriving DecidableEq, Repr

/-- The call `fmt.Errorf(lead + "%v", err)` for a non-nil `err`: a new error whose
text is `lead` followed by `err.Error()`. -/
def Errorf (lead : String) (err : GoError) : GoError :=
  ⟨lead ++ err.msg⟩

/-- The call `fmt.Sprintf(lead + "%s", s)`. -/
def Sprintf (lead : String) (s : String) : String :=
  lead ++ s

/-! ## The `mcp_golang` response values -/

/-- The `mcp_golang.Role` of a prompt message. -/
inductive Role where
  | RoleUser
  | RoleAssistant
  deriving DecidableEq, Repr

/-- The `mcp_golang.ContentType` tag of a content item. -/
inductive ContentType where
  | ContentTypeText
  | ContentTypeImage
  | ContentTypeEmbeddedResource
  deriving DecidableEq, Repr

/-- The `mcp_golang.Content` value: its type tag and, for text, the text. -/
structure Content where
  kind : ContentType
  TextContent : Option String
  deriving DecidableEq, Repr

/-- The constructor `mcp_golang.NewTextContent`. -/
def NewTextContent (content : String) : Content :=
  { kind := ContentType.ContentTypeText, TextContent := some content }

/-- The `mcp_golang.ToolResponse` value: the list of its content items. -/
structure ToolResponse where
  Content : List Content
  deriving DecidableEq, Repr

/-- The variadic constructor `mcp_golang.NewToolResponse`. -/
def NewToolResponse (content : List Content) : ToolResponse :=
  { Content := content }

/-- The `mcp_golang.PromptMessage` value. -/
structure PromptMessage where
  Content : Content
  Role : Role
  deriving DecidableEq, Repr

/-- The constructor `mcp_golang.NewPromptMessage`. -/
def NewPromptMessage (content : Content) (role : Role) : PromptMessage :=
  { Content := content, Role := role }

/-- The `mcp_golang.PromptResponse` value. -/
structure PromptResponse where
  Description : String
  Messages : List PromptMessage
  deriving DecidableEq, Repr

/-- The variadic constructor `mcp_golang.NewPromptResponse`. -/
def NewPromptResponse (description : String) (messages : List PromptMessage) : PromptResponse :=
  { Description := description, Messages := messages }

/-- What a tool handler returns: `(*ToolResponse, error)`, `none` being `nil`. -/
abbrev ToolResult := Option ToolResponse × Option GoError

/-- What a prompt handler returns: `(*PromptResponse, error)`, `none` being `nil`. -/
abbrev PromptResult := Option PromptResponse × Option GoError

/-! ## Argument structures -/

/-- Modelled from the spec: a line and character position of a document; the
data model of the specification gives the two ends of a range as such
positions. -/
structure Position where
  line : Nat
  character : Nat
  deriving DecidableEq, Repr

/-- Modelled from the spec: a range of a document, from `start` up to `stop`. -/
structure Range where
  start : Position
  stop : Position
  deriving DecidableEq, Repr

/-- Modelled from the spec: the declaration of `tools.TextEdit` is not part of
`tools.go`; section 3 of the specification gives it as a range of the original
document together with the replacement text. -/
structure TextEdit where
  range : Range
  newText : String
  deriving DecidableEq, Repr

/-- The argument structure `ReadDefinitionArgs`. -/
structure ReadDefinitionArgs where
  SymbolName : String
  ShowLineNumbers : Bool
  deriving DecidableEq, Repr

/-- The argument structure `FindReferencesArgs`. -/
structure FindReferencesArgs where
  SymbolName : String
  ShowLineNumbers : Bool
  deriving DecidableEq, Repr

/-- The argument structure `ApplyTextEditArgs`. -/
structure ApplyTextEditArgs where
  FilePath : String
  Edits : List TextEdit
  deriving DecidableEq, Repr

/-- The argument structure `GetDiagnosticsArgs`. -/
structure GetDiagnosticsArgs where
  FilePath : String
  IncludeContext : Bool
  ShowLineNumbers : Bool
  deriving DecidableEq, Repr

/-- The argument structure `GetCodeLensArgs`. -/
structure GetCodeLensArgs where
  FilePath : String
  deriving DecidableEq, Repr

/-- The argument structure `ExecuteCodeLensArgs`. -/
structure ExecuteCodeLensArgs where
  FilePath : String
  Index : Int
  deriving DecidableEq, Repr

/-- The argument structure `Prompt` of the four prompts. -/
structure Prompt where
  Symbol : String
  deriving DecidableEq, Repr

/-! ## The operations of package `tools` -/

/-- What an operation of package `tools` returns: `(string, error)`. -/
abbrev OpResult := String × Option GoError

/-- The six operations of package `tools` that the handlers call, over the state
`σ` of the language-server session and file system (`s.ctx` and `s.lspClient`
are part of that state). -/
structure Backend (σ : Type) where
  ApplyTextEdits : String → List TextEdit → σ → OpResult × σ
  ReadDefinition : String → Bool → σ → OpResult × σ
  FindReferences : String → Bool → σ → OpResult × σ
  GetDiagnosticsForFile : String → Bool → Bool → σ → OpResult × σ
  GetCodeLens : String → σ → OpResult × σ
  ExecuteCodeLens : String → Int → σ → OpResult × σ

/-! ## The six tool handlers (closures of `registerTools`) -/

section Handlers

variable {σ : Type}

/-- The handler registered as `apply_text_edit`. -/
def applyTextEditHandler (B : Backend σ) (args : ApplyTextEditArgs) (s : σ) : ToolResult × σ :=
  match B.ApplyTextEdits args.FilePath args.Edits s with
  | ((_, some err), s1) => ((none, some (Errorf "Failed to apply edits: " err)), s1)
  | ((response, none), s1) => ((some (NewToolResponse [NewTextContent response]), none), s1)

/-- The handler registered as `read_definition`. -/
def readDefinitionHandler (B : Backend σ) (args : ReadDefinitionArgs) (s : σ) : ToolResult × σ :=
  match B.ReadDefinition args.SymbolName args.ShowLineNumbers s with
  | ((_, some err), s1) => ((none, some (Errorf "Failed to get definition: " err)), s1)
  | ((text, none), s1) => ((some (NewToolResponse [NewTextContent text]), none), s1)

/-- The handler registered as `find_references`. -/
def findReferencesHandler (B : Backend σ) (args : FindReferencesArgs) (s : σ) : ToolResult × σ :=
  match B.FindReferences args.SymbolName args.ShowLineNumbers s with
  | ((_, some err), s1) => ((none, some (Errorf "Failed to find references: " err)), s1)
  | ((text, none), s1) => ((some (NewToolResponse [NewTextContent text]), none), s1)

/-- The handler registered as `get_diagnostics`. -/
def getDiagnosticsHandler (B : Backend σ) (args : GetDiagnosticsArgs) (s : σ) : ToolResult × σ :=
  match B.GetDiagnosticsForFile args.FilePath args.IncludeContext args.ShowLineNumbers s with
  | ((_, some err), s1) => ((none, some (Errorf "Failed to get diagnostics: " err)), s1)
  | ((text, none), s1) => ((some (NewToolResponse [NewTextContent text]), none), s1)

/-- The handler registered as `get_codelens`. -/
def getCodeLensHandler (B : Backend σ) (args : GetCodeLensArgs) (s : σ) : ToolResult × σ :=
  match B.GetCodeLens args.FilePath s with
  | ((_, some err), s1) => ((none, some (Errorf "Failed to get code lens: " err)), s1)
  | ((text, none), s1) => ((some (NewToolResponse [NewTextContent text]), none), s1)

/-- The handler registered as `execute_codelens`. -/
def executeCodeLensHandler (B : Backend σ) (args : ExecuteCodeLensArgs) (s : σ) : ToolResult × σ :=
  match B.ExecuteCodeLens args.FilePath args.Index s with
  | ((_, some err), s1) => ((none, some (Errorf "Failed to execute code lens: " err)), s1)
  | ((text, none), s1) => ((some (NewToolResponse [NewTextContent text]), none), s1)

/-! ## The four prompt handlers (closures of `registerPrompts`) -/

/-- The handler registered as `read-definition`. -/
def readDefinitionPrompt (B : Backend σ) (argument : Prompt) (s : σ) : PromptResult × σ :=
  match B.ReadDefinition argument.Symbol true s with
  | ((_, some _), s1) =>
    ((some (NewPromptResponse "Error response"
      [NewPromptMessage
        (NewTextContent (Sprintf "There is an error reading the definition for " argument.Symbol))
        Role.RoleUser]), none), s1)
  | ((text, none), s1) =>
    ((some (NewPromptResponse "Read definition prompt response"
      [NewPromptMessage (NewTextContent text) Role.RoleUser]), none), s1)

/-- The handler registered as `find-references`. -/
def findReferencesPrompt (B : Backend σ) (argument : Prompt) (s : σ) : PromptResult × σ :=
  match B.FindReferences argument.Symbol true s with
  | ((_, some _), s1) =>
    ((some (NewPromptResponse "Error response"
      [NewPromptMessage
        (NewTextContent (Sprintf "There is an error finding references for " argument.Symbol))
        Role.RoleUser]), none), s1)
  | ((text, none), s1) =>
    ((some (NewPromptResponse "Find references prompt response"
      [NewPromptMessage (NewTextContent text) Role.RoleUser]), none), s1)

/-- The handler registered as `get-codelens`. -/
def getCodeLensPrompt (B : Backend σ) (argument : Prompt) (s : σ) : PromptResult × σ :=
  match B.GetCodeLens argument.Symbol s with
  | ((_, some _), s1) =>
    ((some (NewPromptResponse "Error response"
      [NewPromptMessage
        (NewTextContent (Sprintf "There is an error getting codelens for file " argument.Symbol))
        Role.RoleUser]), none), s1)
  | ((text, none), s1) =>
    ((some (NewPromptResponse "Get codelens prompt response"
      [NewPromptMessage (NewTextContent text) Role.RoleUser]), none), s1)

/-- The handler registered as `get-diagnostics`. -/
def getDiagnosticsPrompt (B : Backend σ) (argument : Prompt) (s : σ) : PromptResult × σ :=
  match B.GetDiagnosticsForFile argument.Symbol true true s with
  | ((_, some _), s1) =>
    ((some (NewPromptResponse "Error response"
      [NewPromptMessage
        (NewTextContent (Sprintf "There is an error getting diagnostics for file " argument.Symbol))
        Role.RoleUser]), none), s1)
  | ((text, none), s1) =>
    ((some (NewPromptResponse "Get diagnostics prompt response"
      [NewPromptMessage (NewTextContent text) Role.RoleUser]), none), s1)

end Handlers

/-! ## Registration (`registerTools`, `registerPrompts`) -/

/-- A tool handler as passed to `RegisterTool`: a closure over one of the six
argument structures. -/
inductive ToolHandler (σ : Type) where
  | onApplyTextEditArgs (h : ApplyTextEditArgs → σ → ToolResult × σ)
  | onReadDefinitionArgs (h : ReadDefinitionArgs → σ → ToolResult × σ)
  | onFindReferencesArgs (h : FindReferencesArgs → σ → ToolResult × σ)
  | onGetDiagnosticsArgs (h : GetDiagnosticsArgs → σ → ToolResult × σ)
  | onGetCodeLensArgs (h : GetCodeLensArgs → σ → ToolResult × σ)
  | onExecuteCodeLensArgs (h : ExecuteCodeLensArgs → σ → ToolResult × σ)

/-- A prompt handler as passed to `RegisterPrompt`. -/
abbrev PromptHandler (σ : Type) := Prompt → σ → PromptResult × σ

/-- The `mcp_golang` server `s.mcpServer`, over its registry state `ρ`: each
registration call takes a name, a description and a handler, may fail, and
leaves a new registry state. -/
structure Server (ρ σ : Type) where
  RegisterTool : String → String → ToolHandler σ → ρ → Option GoError × ρ
  RegisterPrompt : String → String → PromptHandler σ → ρ → Option GoError × ρ

section Registration

variable {ρ σ : Type}

/-- The method `registerPrompts`. -/
def registerPrompts (S : Server ρ σ) (B : Backend σ) (m : ρ) : Option GoError × ρ :=
  match S.RegisterPrompt "read-definition" "call the read_definition tool TODO"
      (readDefinitionPrompt B) m with
  | (some err, m1) => (some (Errorf "failed to register read-definition prompt: " err), m1)
  | (none, m1) =>
  match S.RegisterPrompt "find-references" "call the find_references tool TODO"
      (findReferencesPrompt B) m1 with
  | (some err, m2) => (some (Errorf "failed to register find-references prompt: " err), m2)
  | (none, m2) =>
  match S.RegisterPrompt "get-codelens" "call the get_codelens tool TODO"
      (getCodeLensPrompt B) m2 with
  | (some err, m3) => (some (Errorf "failed to register get-codelens prompt: " err), m3)
  | (none, m3) =>
  match S.RegisterPrompt "get-diagnostics" "call the get_diagnostics tool TODO"
      (getDiagnosticsPrompt B) m3 with
  | (some err, m4) => (some (Errorf "failed to register get-diagnostics prompt: " err), m4)
  | (none, m4) => (none, m4)

/-- The method `registerTools`. -/
def registerTools (S : Server ρ σ) (B : Backend σ) (m : ρ) : Option GoError × ρ :=
  match S.RegisterTool "apply_text_edit" "Apply multiple text edits to a file."
      (ToolHandler.onApplyTextEditArgs (applyTextEditHandler B)) m with
  | (some err, m1) => (some (Errorf "failed to register tool: " err), m1)
  | (none, m1) =>
  match S.RegisterTool "read_definition"
      "Read the source code definition of a symbol (function, type, constant, etc.) from the codebase. Returns the complete implementation code where the symbol is defined."
      (ToolHandler.onReadDefinitionArgs (readDefinitionHandler B)) m1 with
  | (some err, m2) => (some (Errorf "failed to register tool: " err), m2)
  | (none, m2) =>
  match S.RegisterTool "find_references"
      "Find all usages and references of a symbol throughout the codebase. Returns a list of all files and locations where the symbol appears."
      (ToolHandler.onFindReferencesArgs (findReferencesHandler B)) m2 with
  | (some err, m3) => (some (Errorf "failed to register tool: " err), m3)
  | (none, m3) =>
  match S.RegisterTool "get_diagnostics"
      "Get diagnostic information for a specific file from the language server."
      (ToolHandler.onGetDiagnosticsArgs (getDiagnosticsHandler B)) m3 with
  | (some err, m4) => (some (Errorf "failed to register tool: " err), m4)
  | (none, m4) =>
  match S.RegisterTool "get_codelens"
      "Get code lens hints for a given file from the language server."
      (ToolHandler.onGetCodeLensArgs (getCodeLensHandler B)) m4 with
  | (some err, m5) => (some (Errorf "failed to register tool: " err), m5)
  | (none, m5) =>
  match S.RegisterTool "execute_codelens"
      "Execute a code lens command for a given file and lens index."
      (ToolHandler.onExecuteCodeLensArgs (executeCodeLensHandler B)) m5 with
  | (some err, m6) => (some (Errorf "failed to register tool: " err), m6)
  | (none, m6) => (none, m6)

end Registration

/-! ## Naming the handlers and observing their calls -/

/-- The six tools, by the name under which `registerTools` registers them. -/
inductive ToolName where
  | apply_text_edit
  | read_definition
  | find_references
  | get_diagnostics
  | get_codelens
  | execute_codelens
  deriving DecidableEq, Repr

/-- The registered name of a tool. -/
def ToolName.name : ToolName → String
  | .apply_text_edit => "apply_text_edit"
  | .read_definition => "read_definition"
  | .find_references => "find_references"
  | .get_diagnostics => "get_diagnostics"
  | .get_codelens => "get_codelens"
  | .execute_codelens => "execute_codelens"

/-- The fixed text expected at the start of the error of a failing tool, stated
apart from the handlers for comparison with them. -/
def ToolName.failureLead : ToolName → String
  | .apply_text_edit => "Failed to apply edits: "
  | .read_definition => "Failed to get definition: "
  | .find_references => "Failed to find references: "
  | .get_diagnostics => "Failed to get diagnostics: "
  | .get_codelens => "Failed to get code lens: "
  | .execute_codelens => "Failed to execute code lens: "

/-- A call of a tool: which of the six tools, with its argument value. -/
inductive ToolCall where
  | apply_text_edit (args : ApplyTextEditArgs)
  | read_definition (args : ReadDefinitionArgs)
  | find_references (args : FindReferencesArgs)
  | get_diagnostics (args : GetDiagnosticsArgs)
  | get_codelens (args : GetCodeLensArgs)
  | execute_codelens (args : ExecuteCodeLensArgs)
  deriving DecidableEq, Repr

/-- The tool that a call addresses. -/
def ToolCall.tool : ToolCall → ToolName
  | .apply_text_edit _ => .apply_text_edit
  | .read_definition _ => .read_definition
  | .find_references _ => .find_references
  | .get_diagnostics _ => .get_diagnostics
  | .get_codelens _ => .get_codelens
  | .execute_codelens _ => .execute_codelens

/-- Running the handler that `registerTools` registers for the tool of the call. -/
def callTool {σ : Type} (B : Backend σ) : ToolCall → σ → ToolResult × σ
  | .apply_text_edit args => applyTextEditHandler B args
  | .read_definition args => readDefinitionHandler B args
  | .find_references args => findReferencesHandler B args
  | .get_diagnostics args => getDiagnosticsHandler B args
  | .get_codelens args => getCodeLensHandler B args
  | .execute_codelens args => executeCodeLensHandler B args

/-- One invocation of an operation of package `tools`, with its arguments. -/
inductive BackendCall where
  | ApplyTextEdits (filePath : String) (edits : List TextEdit)
  | ReadDefinition (symbolName : String) (showLineNumbers : Bool)
  | FindReferences (symbolName : String) (showLineNumbers : Bool)
  | GetDiagnosticsForFile (filePath : String) (includeContext : Bool) (showLineNumbers : Bool)
  | GetCodeLens (filePath : String)
  | ExecuteCodeLens (filePath : String) (index : Int)
  deriving DecidableEq, Repr

/-- Performing one invocation on a backend. -/
def Backend.perform {σ : Type} (B : Backend σ) : BackendCall → σ → OpResult × σ
  | .ApplyTextEdits filePath edits => B.ApplyTextEdits filePath edits
  | .ReadDefinition symbolName showLineNumbers => B.ReadDefinition symbolName showLineNumbers
  | .FindReferences symbolName showLineNumbers => B.FindReferences symbolName showLineNumbers
  | .GetDiagnosticsForFile filePath includeContext showLineNumbers =>
    B.GetDiagnosticsForFile filePath includeContext showLineNumbers
  | .GetCodeLens filePath => B.GetCodeLens filePath
  | .ExecuteCodeLens filePath index => B.ExecuteCodeLens filePath index

/-- The backend `B` with a log: every operation behaves as in `B` and appends the
invocation it received to the log. -/
def recording {σ : Type} (B : Backend σ) : Backend (σ × List BackendCall) where
  ApplyTextEdits filePath edits st :=
    ((B.ApplyTextEdits filePath edits st.1).1,
      ((B.ApplyTextEdits filePath edits st.1).2, st.2 ++ [.ApplyTextEdits filePath edits]))
  ReadDefinition symbolName showLineNumbers st :=
    ((B.ReadDefinition symbolName showLineNumbers st.1).1,
      ((B.ReadDefinition symbolName showLineNumbers st.1).2,
        st.2 ++ [.ReadDefinition symbolName showLineNumbers]))
  FindReferences symbolName showLineNumbers st :=
    ((B.FindReferences symbolName showLineNumbers st.1).1,
      ((B.FindReferences symbolName showLineNumbers st.1).2,
        st.2 ++ [.FindReferences symbolName showLineNumbers]))
  GetDiagnosticsForFile filePath includeContext showLineNumbers st :=
    ((B.GetDiagnosticsForFile filePath includeContext showLineNumbers st.1).1,
      ((B.GetDiagnosticsForFile filePath includeContext showLineNumbers st.1).2,
        st.2 ++ [.GetDiagnosticsForFile filePath includeContext showLineNumbers]))
  GetCodeLens filePath st :=
    ((B.GetCodeLens filePath st.1).1,
      ((B.GetCodeLens filePath st.1).2, st.2 ++ [.GetCodeLens filePath]))
  ExecuteCodeLens filePath index st :=
    ((B.ExecuteCodeLens filePath index st.1).1,
      ((B.ExecuteCodeLens filePath index st.1).2, st.2 ++ [.ExecuteCodeLens filePath index]))

/-- The invocation that passes the argument fields of a tool call unchanged to
the operation of that tool. -/
def ToolCall.invocation : ToolCall → BackendCall
  | .apply_text_edit args => .ApplyTextEdits args.FilePath args.Edits
  | .read_definition args => .ReadDefinition args.SymbolName args.ShowLineNumbers
  | .find_references args => .FindReferences args.SymbolName args.ShowLineNumbers
  | .get_diagnostics args =>
    .GetDiagnosticsForFile args.FilePath args.IncludeContext args.ShowLineNumbers
  | .get_codelens args => .GetCodeLens args.FilePath
  | .execute_codelens args => .ExecuteCodeLens args.FilePath args.Index

/-- The four prompts of `registerPrompts`, by the tool they stand for. -/
inductive PromptName where
  | read_definition
  | find_references
  | get_codelens
  | get_diagnostics
  deriving DecidableEq, Repr

/-- The name under which `registerPrompts` registers a prompt. -/
def PromptName.name : PromptName → String
  | .read_definition => "read-definition"
  | .find_references => "find-references"
  | .get_codelens => "get-codelens"
  | .get_diagnostics => "get-diagnostics"

/-- Running the handler that `registerPrompts` registers for a prompt. -/
def callPrompt {σ : Type} (B : Backend σ) : PromptName → Prompt → σ → PromptResult × σ
  | .read_definition => readDefinitionPrompt B
  | .find_references => findReferencesPrompt B
  | .get_codelens => getCodeLensPrompt B
  | .get_diagnostics => getDiagnosticsPrompt B

/-- The invocation a prompt handler makes for a symbol argument, read off the
four closures of `registerPrompts`. -/
def PromptName.invocation : PromptName → String → BackendCall
  | .read_definition, symbol => .ReadDefinition symbol true
  | .find_references, symbol => .FindReferences symbol true
  | .get_codelens, symbol => .GetCodeLens symbol
  | .get_diagnostics, symbol => .GetDiagnosticsForFile symbol true true

/-- The fixed sentence expected at the start of the text of a prompt whose
operation failed, stated apart from the handlers for comparison with them. -/
def PromptName.errorSentence : PromptName → String
  | .read_definition => "There is an error reading the definition for "
  | .find_references => "There is an error finding references for "
  | .get_codelens => "There is an error getting codelens for file "
  | .get_diagnostics => "There is an error getting diagnostics for file "

/-- The tool call a prompt mirrors according to the specification: the target
string as `symbolName` or `filePath`, every other argument at the default that
the argument structure declares (`showLineNumbers` is `default=true`,
`includeContext` is `default=false`). -/
def PromptName.mirroredCall : PromptName → String → ToolCall
  | .read_definition, target => .read_definition { SymbolName := target, ShowLineNumbers := true }
  | .find_references, target => .find_references { SymbolName := target, ShowLineNumbers := true }
  | .get_codelens, target => .get_codelens { FilePath := target }
  | .get_diagnostics, target =>
    .get_diagnostics { FilePath := target, IncludeContext := false, ShowLineNumbers := true }

/-- The text of a tool response that holds exactly one text content. -/
def ToolResult.text : ToolResult → Option String
  | (some { Content := [c] }, _) => c.TextContent
  | _ => none

/-- The text of a prompt response that holds exactly one message. -/
def PromptResult.text : PromptResult → Option String
  | (some { Description := _, Messages := [m] }, _) => m.Content.TextContent
  | _ => none

/-- Whether the text `needle` occurs somewhere inside the text `hay`. -/
def occursIn (needle hay : String) : Prop :=
  needle.data <:+: hay.data

instance (needle hay : String) : Decidable (occursIn needle hay) :=
  inferInstanceAs (Decidable (needle.data <:+: hay.data))

/-! ## Observing the registration calls -/

/-- One registration call: a tool or a prompt, with its name, description and
handler. -/
inductive Registration (σ : Type) where
  | tool (name description : String) (handler : ToolHandler σ)
  | prompt (name description : String) (handler : PromptHandler σ)

/-- The name a registration call registers. -/
def Registration.name {σ : Type} : Registration σ → String
  | .tool name _ _ => name
  | .prompt name _ _ => name

/-- A registration call that was made, with the error it returned (`none` when
it succeeded). -/
structure Attempt (σ : Type) where
  registration : Registration σ
  outcome : Option GoError

/-- The server `S` with a log: every registration call behaves as in `S` and
appends itself and its outcome to the log. -/
def traced {ρ σ : Type} (S : Server ρ σ) : Server (ρ × List (Attempt σ)) σ where
  RegisterTool name description handler st :=
    ((S.RegisterTool name description handler st.1).1,
      ((S.RegisterTool name description handler st.1).2,
        st.2 ++ [{ registration := .tool name description handler,
                   outcome := (S.RegisterTool name description handler st.1).1 }]))
  RegisterPrompt name description handler st :=
    ((S.RegisterPrompt name description handler st.1).1,
      ((S.RegisterPrompt name description handler st.1).2,
        st.2 ++ [{ registration := .prompt name description handler,
                   outcome := (S.RegisterPrompt name description handler st.1).1 }]))

/-- The six registration calls of `registerTools`, in source order. -/
def toolPlan {σ : Type} (B : Backend σ) : List (Registration σ) :=
  [ .tool "apply_text_edit" "Apply multiple text edits to a file."
      (.onApplyTextEditArgs (applyTextEditHandler B)),
    .tool "read_definition"
      "Read the source code definition of a symbol (function, type, constant, etc.) from the codebase. Returns the complete implementation code where the symbol is defined."
      (.onReadDefinitionArgs (readDefinitionHandler B)),
    .tool "find_references"
      "Find all usages and references of a symbol throughout the codebase. Returns a list of all files and locations where the symbol appears."
      (.onFindReferencesArgs (findReferencesHandler B)),
    .tool "get_diagnostics"
      "Get diagnostic information for a specific file from the language server."
      (.onGetDiagnosticsArgs (getDiagnosticsHandler B)),
    .tool "get_codelens" "Get code lens hints for a given file from the language server."
      (.onGetCodeLensArgs (getCodeLensHandler B)),
    .tool "execute_codelens" "Execute a code lens command for a given file and lens index."
      (.onExecuteCodeLensArgs (executeCodeLensHandler B)) ]

/-- The four registration calls of `registerPrompts`, in source order. -/
def promptPlan {σ : Type} (B : Backend σ) : List (Registration σ) :=
  [ .prompt "read-definition" "call the read_definition tool TODO" (readDefinitionPrompt B),
    .prompt "find-references" "call the find_references tool TODO" (findReferencesPrompt B),
    .prompt "get-codelens" "call the get_codelens tool TODO" (getCodeLensPrompt B),
    .prompt "get-diagnostics" "call the get_diagnostics tool TODO" (getDiagnosticsPrompt B) ]

/-- Making one registration call on a server. -/
def Server.register {ρ σ : Type} (S : Server ρ σ) : Registration σ → ρ → Option GoError × ρ
  | .tool name description handler => S.RegisterTool name description handler
  | .prompt name description handler => S.RegisterPrompt name description handler

/-- The text expected at the start of the error returned when a registration
call fails, stated apart from `registerTools` and `registerPrompts` for
comparison with them. -/
def Registration.failureLead {σ : Type} : Registration σ → String
  | .tool _ _ _ => "failed to register tool: "
  | .prompt name _ _ => "failed to register " ++ name ++ " prompt: "

/-- Making a list of registration calls in order, stopping at the first one that
fails and wrapping its error. -/
def runRegistrations {ρ σ : Type} (S : Server ρ σ) : List (Registration σ) → ρ → Option GoError × ρ
  | [], m => (none, m)
  | r :: rs, m =>
    match S.register r m with
    | (some err, m1) => (some (Errorf r.failureLead err), m1)
    | (none, m1) => runRegistrations S rs m1

/-! ## The edit engine behind `apply_text_edit` -/

/-- Modelled from the spec: strict document order of positions, by line, then by
character. -/
def Position.before (p q : Position) : Bool :=
  p.line < q.line || (p.line == q.line && p.character < q.character)

/-- Modelled from the spec: two ranges overlap when each starts before the other
stops. -/
def Range.overlaps (a b : Range) : Bool :=
  a.start.before b.stop && b.start.before a.stop

/-- Modelled from the spec: whether some pair of edits of the list has
overlapping ranges. -/
def hasOverlap : List TextEdit → Bool
  | [] => false
  | e :: rest => rest.any (fun f => e.range.overlaps f.range) || hasOverlap rest

/-- Modelled from the spec: the lines of a text, split at line feeds. -/
def splitLines : List Char → List (List Char)
  | [] => [[]]
  | c :: cs =>
    if c.toNat = 10 then [] :: splitLines cs
    else
      match splitLines cs with
      | [] => [[c]]
      | l :: ls => (c :: l) :: ls

/-- Modelled from the spec: a position lies within the document when its line
exists and its character is at most the length of that line. -/
def Position.inBounds (doc : List (List Char)) (p : Position) : Bool :=
  match doc.get? p.line with
  | some l => decide (p.character ≤ l.length)
  | none => false

/-- Modelled from the spec: a range lies within the document and does not stop
before it starts. -/
def Range.inBounds (doc : List (List Char)) (r : Range) : Bool :=
  r.start.inBounds doc && r.stop.inBounds doc && !(r.stop.before r.start)

/-- Modelled from the spec: the character offset of a position of the document. -/
def Position.offset (doc : List (List Char)) (p : Position) : Nat :=
  ((doc.take p.line).map (fun l => l.length + 1)).sum + p.character

/-- Modelled from the spec: applying one edit to the text, its range taken in the
original document. -/
def applyEdit (doc : List (List Char)) (text : List Char) (e : TextEdit) : List Char :=
  text.take (e.range.start.offset doc) ++ e.newText.data ++ text.drop (e.range.stop.offset doc)

/-- Modelled from the spec: the edits in reverse document order, by descending
start position. -/
def sortDescending (edits : List TextEdit) : List TextEdit :=
  edits.insertionSort (fun a b => a.range.start.before b.range.start = false)

/-- Modelled from the spec: the files on disk, by path, and the change
notifications sent to the language server so far. -/
structure Workspace where
  files : List (String × String)
  notified : List (String × String)
  deriving DecidableEq, Repr

/-- Modelled from the spec: writing a file replaces the content stored under the
path. -/
def writeFile (filePath content : String) : List (String × String) → List (String × String)
  | [] => [(filePath, content)]
  | (q, c) :: rest =>
    if q = filePath then (filePath, content) :: rest else (q, c) :: writeFile filePath content rest

/-- Modelled from the spec: the error values of the edit engine, of the kinds
that the error handling design of the specification names; their texts are
left open. -/
structure EngineErrors where
  InvalidEditRange : GoError
  FileIOError : GoError
  deriving DecidableEq, Repr

/-- Modelled from the spec: the function `tools.ApplyTextEdits`, of package
`internal/tools`, is not part of `tools.go`.  Section 4.5 of the specification
describes it: validate that no pair of ranges overlaps and that all ranges lie
within the document, failing with no mutation attempted; sort the edits by
descending start; apply them in that order to an in-memory copy; write the text
back once; then notify the language server.  The result is a message that names
the number of edits applied. -/
def ApplyTextEdits (E : EngineErrors) (filePath : String) (edits : List TextEdit)
    (w : Workspace) : OpResult × Workspace :=
  if hasOverlap edits then (("", some E.InvalidEditRange), w)
  else
    match w.files.lookup filePath with
    | none => (("", some E.FileIOError), w)
    | some text =>
      if edits.all (fun e => e.range.inBounds (splitLines text.data)) then
        (("Successfully applied text edits. " ++ toString edits.length ++ " edits applied.", none),
          { files := writeFile filePath
              (String.mk ((sortDescending edits).foldl (applyEdit (splitLines text.data)) text.data))
              w.files,
            notified := w.notified ++
              [(filePath,
                String.mk ((sortDescending edits).foldl (applyEdit (splitLines text.data)) text.data))] })
      else (("", some E.InvalidEditRange), w)

/-- A backend over a workspace whose `ApplyTextEdits` is the edit engine; the
other five operations are those of `B`. -/
def withEditEngine (E : EngineErrors) (B : Backend Workspace) : Backend Workspace :=
  { B with ApplyTextEdits := ApplyTextEdits E }

/-! ## Concrete backends and servers -/

/-- A backend without state whose six operations all return `r`. -/
def replyBackend (r : OpResult) : Backend Unit where
  ApplyTextEdits _ _ s := (r, s)
  ReadDefinition _ _ s := (r, s)
  FindReferences _ _ s := (r, s)
  GetDiagnosticsForFile _ _ _ s := (r, s)
  GetCodeLens _ s := (r, s)
  ExecuteCodeLens _ _ s := (r, s)

/-- A backend over a workspace whose six operations all return `r`. -/
def idleBackend (r : OpResult) : Backend Workspace where
  ApplyTextEdits _ _ s := (r, s)
  ReadDefinition _ _ s := (r, s)
  FindReferences _ _ s := (r, s)
  GetDiagnosticsForFile _ _ _ s := (r, s)
  GetCodeLens _ s := (r, s)
  ExecuteCodeLens _ _ s := (r, s)

/-- A backend without state whose diagnostics carry context lines exactly when
`includeContext` is set. -/
def contextBackend : Backend Unit where
  ApplyTextEdits _ _ s := (("", none), s)
  ReadDefinition _ _ s := (("", none), s)
  FindReferences _ _ s := (("", none), s)
  GetDiagnosticsForFile _ includeContext _ s :=
    ((if includeContext then "1: unused variable x | var x = 1" else "1: unused variable x", none), s)
  GetCodeLens _ s := (("", none), s)
  ExecuteCodeLens _ _ s := (("", none), s)

/-- A server without state that refuses, with error `e`, exactly the
registrations under the name `bad`. -/
def refusingServer (σ : Type) (bad : String) (e : GoError) : Server Unit σ where
  RegisterTool name _ _ m := (if name = bad then some e else none, m)
  RegisterPrompt name _ _ m := (if name = bad then some e else none, m)

/-- A workspace with one file of two lines. -/
def sampleWorkspace : Workspace :=
  { files := [("a.go", "package a\nvar x = 1")], notified := [] }

/-- Two edits whose ranges overlap on line 1: characters 0 to 5 and 4 to 9. -/
def overlappingEdits : List TextEdit :=
  [ { range := { start := ⟨1, 0⟩, stop := ⟨1, 5⟩ }, newText := "let" },
    { range := { start := ⟨1, 4⟩, stop := ⟨1, 9⟩ }, newText := "y = 2" } ]

/-- A single edit that replaces line 1. -/
def replaceLineOne : List TextEdit :=
  [ { range := { start := ⟨1, 0⟩, stop := ⟨1, 9⟩ }, newText := "var y = 2" } ]


/-! ## Supporting lemmas -/

theorem registerTools_eq_run {ρ σ : Type} (S : Server ρ σ) (B : Backend σ) (m : ρ) :
    registerTools S B m = runRegistrations S (toolPlan B) m := rfl

theorem registerPrompts_eq_run {ρ σ : Type} (S : Server ρ σ) (B : Backend σ) (m : ρ) :
    registerPrompts S B m = runRegistrations S (promptPlan B) m := rfl

theorem traced_register {ρ σ : Type} (S : Server ρ σ) (r : Registration σ) (m : ρ)
    (log : List (Attempt σ)) :
    (traced S).register r (m, log) =
      ((S.register r m).1, ((S.register r m).2, log ++ [⟨r, (S.register r m).1⟩])) := by
  cases r <;> rfl

theorem run_traced_faithful {ρ σ : Type} (S : Server ρ σ) :
    ∀ (plan : List (Registration σ)) (m : ρ) (log : List (Attempt σ)),
      (runRegistrations (traced S) plan (m, log)).1 = (runRegistrations S plan m).1 ∧
      (runRegistrations (traced S) plan (m, log)).2.1 = (runRegistrations S plan m).2
  | [], m, log => ⟨rfl, rfl⟩
  | r :: rs, m, log => by
    rcases h : S.register r m with ⟨o, m1⟩
    cases o with
    | some err => simp [runRegistrations, traced_register, h]
    | none =>
      simp only [runRegistrations, traced_register, h]
      exact run_traced_faithful S rs m1 _

theorem run_traced_shape {ρ σ : Type} (S : Server ρ σ) :
    ∀ (plan : List (Registration σ)) (m : ρ) (log : List (Attempt σ)),
      ∃ att : List (Attempt σ),
        (runRegistrations (traced S) plan (m, log)).2.2 = log ++ att ∧
        att.map Attempt.registration <+: plan ∧
        ((runRegistrations (traced S) plan (m, log)).1 = none →
          att.map Attempt.registration = plan ∧ ∀ a ∈ att, a.outcome = none) ∧
        (∀ x, (runRegistrations (traced S) plan (m, log)).1 = some x →
          ∃ (init : List (Attempt σ)) (last : Attempt σ) (e : GoError),
            att = init ++ [last] ∧ last.outcome = some e ∧
            x = Errorf last.registration.failureLead e ∧ ∀ a ∈ init, a.outcome = none)
  | [], m, log => ⟨[], by simp [runRegistrations]⟩
  | r :: rs, m, log => by
    rcases h : S.register r m with ⟨o, m1⟩
    cases o with
    | some err =>
      refine ⟨[⟨r, some err⟩], ?_, ?_, ?_, ?_⟩
      · simp [runRegistrations, traced_register, h]
      · simp
      · simp [runRegistrations, traced_register, h]
      · intro x hx
        refine ⟨[], ⟨r, some err⟩, err, rfl, rfl, ?_, by simp⟩
        simpa [runRegistrations, traced_register, h] using hx.symm
    | none =>
      obtain ⟨att, h1, h2, h3, h4⟩ := run_traced_shape S rs m1 (log ++ [⟨r, none⟩])
      refine ⟨⟨r, none⟩ :: att, ?_, ?_, ?_, ?_⟩
      · simp only [runRegistrations, traced_register, h]
        rw [h1]; simp
      · simpa using h2
      · intro hn
        simp only [runRegistrations, traced_register, h] at hn
        obtain ⟨h5, h6⟩ := h3 hn
        refine ⟨by simp [h5], ?_⟩
        intro a ha
        rcases List.mem_cons.1 ha with rfl | ha
        · rfl
        · exact h6 a ha
      · intro x hx
        simp only [runRegistrations, traced_register, h] at hx
        obtain ⟨init, last, e, h5, h6, h7, h8⟩ := h4 x hx
        refine ⟨⟨r, none⟩ :: init, last, e, by simp [h5], h6, h7, ?_⟩
        intro a ha
        rcases List.mem_cons.1 ha with rfl | ha
        · rfl
        · exact h8 a ha


theorem callTool_cases {σ : Type} (B : Backend σ) (c : ToolCall) (s : σ) :
    (∃ e, (B.perform c.invocation s).1.2 = some e ∧
      callTool B c s = ((none, some ⟨c.tool.failureLead ++ e.msg⟩), (B.perform c.invocation s).2)) ∨
    ((B.perform c.invocation s).1.2 = none ∧
      callTool B c s =
        ((some (NewToolResponse [NewTextContent (B.perform c.invocation s).1.1]), none),
          (B.perform c.invocation s).2)) := by
  cases c <;>
    simp only [callTool, ToolCall.invocation, Backend.perform, ToolCall.tool,
      ToolName.failureLead, applyTextEditHandler, readDefinitionHandler, findReferencesHandler,
      getDiagnosticsHandler, getCodeLensHandler, executeCodeLensHandler] <;>
    split <;> rename_i h <;> simp [h, Errorf]

theorem callPrompt_cases {σ : Type} (B : Backend σ) (k : PromptName) (a : Prompt) (s : σ) :
    (∃ e, (B.perform (k.invocation a.Symbol) s).1.2 = some e ∧
      callPrompt B k a s =
        ((some (NewPromptResponse "Error response"
          [NewPromptMessage (NewTextContent (k.errorSentence ++ a.Symbol)) Role.RoleUser]), none),
          (B.perform (k.invocation a.Symbol) s).2)) ∨
    ((B.perform (k.invocation a.Symbol) s).1.2 = none ∧
      ∃ d, d ≠ "Error response" ∧ callPrompt B k a s =
        ((some (NewPromptResponse d
          [NewPromptMessage (NewTextContent (B.perform (k.invocation a.Symbol) s).1.1)
            Role.RoleUser]), none),
          (B.perform (k.invocation a.Symbol) s).2)) := by
  cases k <;>
    simp only [callPrompt, PromptName.invocation, Backend.perform, PromptName.errorSentence,
      readDefinitionPrompt, findReferencesPrompt, getCodeLensPrompt, getDiagnosticsPrompt] <;>
    split <;> rename_i h <;> simp [h, Sprintf] <;> exact ⟨_, by decide, rfl⟩

theorem perform_recording {σ : Type} (B : Backend σ) (c : BackendCall) (s : σ)
    (log : List BackendCall) :
    (recording B).perform c (s, log) = ((B.perform c s).1, ((B.perform c s).2, log ++ [c])) := by
  cases c <;> rfl

theorem failureLead_not_initial (a b : ToolName) (h : a ≠ b) :
    ¬ a.failureLead.data <+: b.failureLead.data := by
  revert h; cases a <;> cases b <;> decide

theorem failureLead_determines (a b : ToolName) (x y : String)
    (h : a.failureLead ++ x = b.failureLead ++ y) : a = b := by
  by_contra hne
  have hd : a.failureLead.data ++ x.data = b.failureLead.data ++ y.data := by
    have := congrArg String.data h
    simpa using this
  have h1 : a.failureLead.data <+: b.failureLead.data ++ y.data := ⟨x.data, hd⟩
  have h2 : b.failureLead.data <+: b.failureLead.data ++ y.data := ⟨y.data, rfl⟩
  rcases List.prefix_or_prefix_of_prefix h1 h2 with h3 | h3
  · exact failureLead_not_initial a b hne h3
  · exact failureLead_not_initial b a (Ne.symm hne) h3


theorem callTool_recording {σ : Type} (B : Backend σ) (c : ToolCall) (s : σ)
    (log : List BackendCall) :
    callTool (recording B) c (s, log) =
      ((callTool B c s).1, ((callTool B c s).2, log ++ [c.invocation])) := by
  rcases callTool_cases (recording B) c (s, log) with ⟨e, h1, h2⟩ | ⟨h1, h2⟩ <;>
    rcases callTool_cases B c s with ⟨e2, h3, h4⟩ | ⟨h3, h4⟩ <;>
    simp only [perform_recording] at h1 h2 <;>
    simp_all

theorem callPrompt_recording {σ : Type} (B : Backend σ) (k : PromptName) (a : Prompt) (s : σ)
    (log : List BackendCall) :
    callPrompt (recording B) k a (s, log) =
      ((callPrompt B k a s).1, ((callPrompt B k a s).2, log ++ [k.invocation a.Symbol])) := by
  cases k <;>
    simp only [callPrompt, PromptName.invocation, readDefinitionPrompt, findReferencesPrompt,
      getCodeLensPrompt, getDiagnosticsPrompt, recording] <;>
    split <;> rename_i h <;> split <;> rename_i h2 <;> simp_all

theorem name_not_in_failureLead (n : ToolName) : ¬ occursIn n.name n.failureLead := by
  cases n <;> decide

theorem run_traced_fail_fast {ρ σ : Type} (S : Server ρ σ) (plan : List (Registration σ))
    (m : ρ) :
    ((runRegistrations (traced S) plan (m, [])).1 = none ↔
      ((runRegistrations (traced S) plan (m, [])).2.2.map Attempt.registration = plan ∧
        ∀ a ∈ (runRegistrations (traced S) plan (m, [])).2.2, a.outcome = none)) ∧
    ((∀ a ∈ (runRegistrations (traced S) plan (m, [])).2.2, a.outcome = none) →
      (runRegistrations (traced S) plan (m, [])).1 = none) ∧
    (∀ (k : Nat) (a : Attempt σ) (e : GoError),
      (runRegistrations (traced S) plan (m, [])).2.2[k]? = some a → a.outcome = some e →
      (runRegistrations (traced S) plan (m, [])).1 = some (Errorf a.registration.failureLead e) ∧
      (runRegistrations (traced S) plan (m, [])).2.2.map Attempt.registration = plan.take (k + 1) ∧
      (runRegistrations (traced S) plan (m, [])).2.2.length = k + 1 ∧
      ∀ (j : Nat) (b : Attempt σ), j < k →
        (runRegistrations (traced S) plan (m, [])).2.2[j]? = some b → b.outcome = none) := by
  obtain ⟨att, h1, h2, h3, h4⟩ := run_traced_shape S plan m []
  rw [List.nil_append] at h1
  rw [h1]
  have hall : (∀ a ∈ att, a.outcome = none) →
      (runRegistrations (traced S) plan (m, [])).1 = none := by
    intro hs
    cases hr : (runRegistrations (traced S) plan (m, [])).1 with
    | none => rfl
    | some x =>
      obtain ⟨init, last, e, h5, h6, _, _⟩ := h4 x hr
      have := hs last (by rw [h5]; simp)
      rw [h6] at this; cases this
  refine ⟨⟨h3, fun h => hall h.2⟩, hall, ?_⟩
  intro k a e hk he
  cases hr : (runRegistrations (traced S) plan (m, [])).1 with
  | none =>
    have := (h3 hr).2 a (List.getElem?_mem hk)
    rw [he] at this; cases this
  | some x =>
    obtain ⟨init, last, e2, h5, h6, h7, h8⟩ := h4 x hr
    subst h5
    rw [List.getElem?_append] at hk
    have hki : ¬ k < init.length := by
      intro hlt
      rw [if_pos hlt] at hk
      have := h8 a (List.getElem?_mem hk)
      rw [he] at this; cases this
    rw [if_neg hki] at hk
    have hmem : a ∈ [last] := List.getElem?_mem hk
    have hal : a = last := by simpa using hmem
    subst hal
    have hk0 : k = init.length := by
      rcases List.getElem?_eq_some.1 hk with ⟨hlt, _⟩
      simp at hlt
      omega
    subst hk0
    rw [h6] at he; cases he
    have hlen : (init ++ [a]).length = init.length + 1 := by simp
    refine ⟨by rw [h7], ?_, hlen, ?_⟩
    · have := List.prefix_iff_eq_take.1 h2
      rw [List.length_map, hlen] at this
      exact this
    · intro j b hj hb
      rw [List.getElem?_append, if_pos hj] at hb
      exact h8 b (List.getElem?_mem hb)

theorem run_traced_error_has_cause {ρ σ : Type} (S : Server ρ σ)
    (plan : List (Registration σ)) (m : ρ) (x : GoError)
    (hx : (runRegistrations (traced S) plan (m, [])).1 = some x) :
    ∃ (k : Nat) (a : Attempt σ) (e : GoError),
      (runRegistrations (traced S) plan (m, [])).2.2[k]? = some a ∧ a.outcome = some e := by
  by_contra hno
  have hall : ∀ a ∈ (runRegistrations (traced S) plan (m, [])).2.2, a.outcome = none := by
    intro a ha
    obtain ⟨k, hk⟩ := List.mem_iff_getElem?.1 ha
    cases ho : a.outcome with
    | none => rfl
    | some e => exact absurd ⟨k, a, e, hk, ho⟩ hno
  have hn := (run_traced_fail_fast S plan m).2.1 hall
  rw [hx] at hn; cases hn

theorem toolPlan_failureLead {σ : Type} (B : Backend σ) (r : Registration σ)
    (h : r ∈ toolPlan B) : r.failureLead = "failed to register tool: " := by
  simp only [toolPlan, List.mem_cons, List.mem_singleton, List.not_mem_nil, or_false] at h
  rcases h with rfl | rfl | rfl | rfl | rfl | rfl <;> rfl

theorem promptPlan_failureLead {σ : Type} (B : Backend σ) (r : Registration σ)
    (h : r ∈ promptPlan B) :
    r.failureLead = "failed to register " ++ r.name ++ " prompt: " ∧
    r.name ∈ ["read-definition", "find-references", "get-codelens", "get-diagnostics"] := by
  simp only [promptPlan, List.mem_cons, List.mem_singleton, List.not_mem_nil, or_false] at h
  rcases h with rfl | rfl | rfl | rfl <;> exact ⟨rfl, by simp [Registration.name]⟩

theorem Range.overlaps_comm (a b : Range) : a.overlaps b = b.overlaps a := by
  simp only [Range.overlaps, Bool.and_comm]

theorem hasOverlap_of_lt : ∀ (edits : List TextEdit) (i j : Nat) (hi : i < edits.length)
    (hj : j < edits.length), i < j →
    (edits.get ⟨i, hi⟩).range.overlaps (edits.get ⟨j, hj⟩).range = true →
    hasOverlap edits = true
  | [], i, _, hi, _, _, _ => absurd hi (Nat.not_lt_zero i)
  | e :: rest, 0, 0, _, _, hij, _ => absurd hij (Nat.lt_irrefl 0)
  | e :: rest, 0, j + 1, _, hj, _, hov => by
    simp only [hasOverlap, Bool.or_eq_true, List.any_eq_true]
    exact Or.inl ⟨rest.get ⟨j, Nat.lt_of_succ_lt_succ hj⟩, List.get_mem _ _ _, hov⟩
  | e :: rest, i + 1, 0, _, _, hij, _ => absurd hij (Nat.not_lt_zero _)
  | e :: rest, i + 1, j + 1, hi, hj, hij, hov => by
    simp only [hasOverlap, Bool.or_eq_true]
    exact Or.inr (hasOverlap_of_lt rest i j (Nat.lt_of_succ_lt_succ hi)
      (Nat.lt_of_succ_lt_succ hj) (Nat.lt_of_succ_lt_succ hij) hov)

theorem hasOverlap_of_ne (edits : List TextEdit) (i j : Nat) (hi : i < edits.length)
    (hj : j < edits.length) (hij : i ≠ j)
    (hov : (edits.get ⟨i, hi⟩).range.overlaps (edits.get ⟨j, hj⟩).range = true) :
    hasOverlap edits = true := by
  rcases Nat.lt_or_gt_of_ne hij with h | h
  · exact hasOverlap_of_lt edits i j hi hj h hov
  · exact hasOverlap_of_lt edits j i hj hi h (by rw [Range.overlaps_comm]; exact hov)

theorem ApplyTextEdits_accepts_sample (E : EngineErrors) :
    ApplyTextEdits E "a.go" replaceLineOne sampleWorkspace =
      (("Successfully applied text edits. 1 edits applied.", none),
        { files := [("a.go", "package a\nvar y = 2")],
          notified := [("a.go", "package a\nvar y = 2")] }) := by
  rfl

/-! ## The properties of the handlers and of registration -/

/-- C1: each of the four prompt handlers, for every argument, every backend and
every state (so for every outcome of the underlying operation, success with any
text or failure with any error), returns a nil error together with a non-nil
response that holds exactly one message, of role user. -/
theorem prompt_returns_one_user_message {σ : Type} (B : Backend σ) (k : PromptName)
    (argument : Prompt) (s : σ) :
    ∃ (resp : PromptResponse) (message : PromptMessage),
      (callPrompt B k argument s).1 = (some resp, none) ∧
      resp.Messages = [message] ∧ message.Role = Role.RoleUser := by
  rcases callPrompt_cases B k argument s with ⟨e, _, h⟩ | ⟨_, d, _, h⟩ <;>
    exact ⟨_, _, by rw [h], rfl, rfl⟩

/-- C2: a tool handler returns a non-nil error exactly when its underlying
operation returns one; the response is then nil and the text of the error is the
fixed text of the handler followed by the text of the cause.  The six fixed texts
are pairwise distinct, none starts another, and so the text of an error
determines the tool that failed. -/
theorem tool_error_iff_operation_error {σ : Type} (B : Backend σ) (c : ToolCall) (s : σ) :
    ((callTool B c s).1.2 ≠ none ↔ (B.perform c.invocation s).1.2 ≠ none) ∧
    (∀ e, (B.perform c.invocation s).1.2 = some e →
      (callTool B c s).1 = (none, some ⟨c.tool.failureLead ++ e.msg⟩)) ∧
    (∀ a b : ToolName, a ≠ b →
      a.failureLead ≠ b.failureLead ∧ ¬ a.failureLead.data <+: b.failureLead.data) ∧
    (∀ (a b : ToolName) (x y : String), a.failureLead ++ x = b.failureLead ++ y → a = b) := by
  refine ⟨?_, ?_, ?_, failureLead_determines⟩
  · rcases callTool_cases B c s with ⟨e, h1, h2⟩ | ⟨h1, h2⟩ <;> simp [h1, h2]
  · intro e he
    rcases callTool_cases B c s with ⟨e2, h1, h2⟩ | ⟨h1, h2⟩
    · rw [h1] at he; cases he; rw [h2]
    · rw [h1] at he; cases he
  · intro a b hab
    refine ⟨?_, failureLead_not_initial a b hab⟩
    intro heq
    exact failureLead_not_initial a b hab (heq ▸ List.prefix_refl _)

theorem tool_error_iff_operation_error_witness :
    (callTool (replyBackend ("", some ⟨"boom"⟩)) (.read_definition ⟨"F", true⟩) ()).1 =
      (none, some ⟨"Failed to get definition: boom"⟩) :=
  (tool_error_iff_operation_error (replyBackend ("", some ⟨"boom"⟩))
    (.read_definition ⟨"F", true⟩) ()).2.1 ⟨"boom"⟩ rfl

/-- C3: a tool handler invokes its underlying operation exactly once, with the
argument fields of the caller unchanged: run on a recording backend it extends
the log by that one invocation and behaves as on the plain backend, whose state
it leaves as the operation left it.  When the operation succeeds with text `t`
the handler returns a nil error and a response of exactly one text content, `t`. -/
theorem tool_invokes_operation_once {σ : Type} (B : Backend σ) (c : ToolCall) (s : σ)
    (log : List BackendCall) :
    (callTool (recording B) c (s, log)).2.2 = log ++ [c.invocation] ∧
    (callTool (recording B) c (s, log)).1 = (callTool B c s).1 ∧
    (callTool (recording B) c (s, log)).2.1 = (callTool B c s).2 ∧
    (callTool B c s).2 = (B.perform c.invocation s).2 ∧
    (∀ t, (B.perform c.invocation s).1 = (t, none) →
      (callTool B c s).1 =
        (some { Content := [{ kind := ContentType.ContentTypeText, TextContent := some t }] },
          none)) := by
  rw [callTool_recording]
  refine ⟨rfl, rfl, rfl, ?_, ?_⟩
  · rcases callTool_cases B c s with ⟨e, _, h2⟩ | ⟨_, h2⟩ <;> rw [h2]
  · intro t ht
    rcases callTool_cases B c s with ⟨e, h1, _⟩ | ⟨_, h2⟩
    · rw [ht] at h1; cases h1
    · rw [h2, ht]; rfl

theorem tool_invokes_operation_once_witness :
    (callTool (replyBackend ("7 references", none)) (.find_references ⟨"F", false⟩) ()).1 =
      (some { Content := [{ kind := ContentType.ContentTypeText,
                            TextContent := some "7 references" }] }, none) :=
  (tool_invokes_operation_once (replyBackend ("7 references", none))
    (.find_references ⟨"F", false⟩) () []).2.2.2.2 "7 references" rfl


theorem prompt_mirrors_tool_with_defaults {σ : Type} (B : Backend σ) (k : PromptName)
    (hk : k ≠ PromptName.get_diagnostics) (target : String) (s : σ) :
    (callTool (recording B) (k.mirroredCall target) (s, [])).2.2 =
      (callPrompt (recording B) k ⟨target⟩ (s, [])).2.2 ∧
    ((B.perform (k.invocation target) s).1.2 = none →
      PromptResult.text (callPrompt B k ⟨target⟩ s).1 =
        ToolResult.text (callTool B (k.mirroredCall target) s).1) := by
  cases k
  case get_diagnostics => exact absurd rfl hk
  all_goals
    refine ⟨by rw [callTool_recording, callPrompt_recording]; rfl, ?_⟩
    intro h
    simp only [PromptName.invocation, Backend.perform] at h
    simp only [callPrompt, callTool, PromptName.mirroredCall, readDefinitionPrompt,
      findReferencesPrompt, getCodeLensPrompt, readDefinitionHandler, findReferencesHandler,
      getCodeLensHandler]
    split <;> rename_i h2 <;> simp_all [PromptResult.text, ToolResult.text, NewPromptResponse,
      NewToolResponse, NewPromptMessage, NewTextContent]

/-- C4: the get-diagnostics prompt does not mirror its tool at its declared
argument defaults.  On a backend whose diagnostics carry context lines exactly when
`includeContext` is set, the prompt for `a.go` asks for diagnostics with
`includeContext = true` and returns the text with context, while the
`get_diagnostics` tool called with `filePath = a.go`, `includeContext = false`
and `showLineNumbers = true` asks with `includeContext = false` and returns the
text without context.  On the same backend the other three prompts return the
text of their tools at the declared defaults. -/
theorem diagnostics_prompt_departs_from_defaults :
    (contextBackend.perform (PromptName.invocation .get_diagnostics "a.go") ()).1.2 = none ∧
    PromptResult.text (callPrompt contextBackend .get_diagnostics ⟨"a.go"⟩ ()).1 =
      some "1: unused variable x | var x = 1" ∧
    ToolResult.text
        (callTool contextBackend (PromptName.mirroredCall .get_diagnostics "a.go") ()).1 =
      some "1: unused variable x" ∧
    (callPrompt (recording contextBackend) .get_diagnostics ⟨"a.go"⟩ ((), [])).2.2 =
      [BackendCall.GetDiagnosticsForFile "a.go" true true] ∧
    (callTool (recording contextBackend) (PromptName.mirroredCall .get_diagnostics "a.go")
        ((), [])).2.2 =
      [BackendCall.GetDiagnosticsForFile "a.go" false true] ∧
    PromptResult.text (callPrompt contextBackend .read_definition ⟨"a.go"⟩ ()).1 =
      ToolResult.text
        (callTool contextBackend (PromptName.mirroredCall .read_definition "a.go") ()).1 ∧
    PromptResult.text (callPrompt contextBackend .find_references ⟨"a.go"⟩ ()).1 =
      ToolResult.text
        (callTool contextBackend (PromptName.mirroredCall .find_references "a.go") ()).1 ∧
    PromptResult.text (callPrompt contextBackend .get_codelens ⟨"a.go"⟩ ()).1 =
      ToolResult.text
        (callTool contextBackend (PromptName.mirroredCall .get_codelens "a.go") ()).1 := by
  refine ⟨rfl, rfl, rfl, rfl, rfl, ?_, ?_, ?_⟩
  · exact (prompt_mirrors_tool_with_defaults contextBackend .read_definition (by decide)
      "a.go" ()).2 rfl
  · exact (prompt_mirrors_tool_with_defaults contextBackend .find_references (by decide)
      "a.go" ()).2 rfl
  · exact (prompt_mirrors_tool_with_defaults contextBackend .get_codelens (by decide)
      "a.go" ()).2 rfl

/-- C6, the claim as stated fails: when `apply_text_edit` fails with cause
`boom`, the text of the returned error is `Failed to apply edits: boom`, in
which the registered name `apply_text_edit` does not occur. -/
theorem tool_error_lacks_registered_name :
    ((replyBackend ("", some ⟨"boom"⟩)).perform
      (ToolCall.apply_text_edit ⟨"a.go", []⟩).invocation ()).1.2 = some ⟨"boom"⟩ ∧
    (callTool (replyBackend ("", some ⟨"boom"⟩)) (.apply_text_edit ⟨"a.go", []⟩) ()).1 =
      (none, some ⟨"Failed to apply edits: boom"⟩) ∧
    (ToolCall.apply_text_edit ⟨"a.go", []⟩).tool.name = "apply_text_edit" ∧
    ¬ occursIn "apply_text_edit" "Failed to apply edits: boom" := by
  refine ⟨rfl, rfl, rfl, ?_⟩
  decide

/-- C6, amended: when the underlying operation of a tool handler fails with
cause `e`, the handler returns a nil response and an error whose text is the
fixed failure text of that handler, which words the operation and does not
contain the registered name of the tool, followed by the text of `e`; both the
fixed text and the text of `e` occur in it. -/
theorem tool_error_carries_phrase_and_cause {σ : Type} (B : Backend σ) (c : ToolCall) (s : σ)
    (e : GoError) (h : (B.perform c.invocation s).1.2 = some e) :
    ∃ err : GoError,
      (callTool B c s).1 = (none, some err) ∧
      err.msg = c.tool.failureLead ++ e.msg ∧
      occursIn c.tool.failureLead err.msg ∧
      occursIn e.msg err.msg ∧
      ¬ occursIn c.tool.name c.tool.failureLead := by
  refine ⟨⟨c.tool.failureLead ++ e.msg⟩, ?_, rfl, ?_, ?_, ?_⟩
  · rcases callTool_cases B c s with ⟨e2, h1, h2⟩ | ⟨h1, _⟩
    · rw [h1] at h; cases h; rw [h2]
    · rw [h1] at h; cases h
  · exact ⟨[], e.msg.data, by simp⟩
  · exact ⟨c.tool.failureLead.data, [], by simp⟩
  · exact name_not_in_failureLead c.tool

theorem tool_error_carries_phrase_and_cause_witness :
    ∃ err : GoError,
      (callTool (replyBackend ("", some ⟨"timeout"⟩)) (.execute_codelens ⟨"a.go", 2⟩) ()).1 =
        (none, some err) ∧
      err.msg = "Failed to execute code lens: timeout" ∧
      occursIn "Failed to execute code lens: " err.msg ∧
      occursIn "timeout" err.msg ∧
      ¬ occursIn "execute_codelens" "Failed to execute code lens: " :=
  tool_error_carries_phrase_and_cause (replyBackend ("", some ⟨"timeout"⟩))
    (.execute_codelens ⟨"a.go", 2⟩) () ⟨"timeout"⟩ rfl

/-- C7: for the six tool handlers and the four prompt handlers alike, the pair of
response and error returned when the underlying operation fails differs from
every pair the same handler returns when the operation succeeds, whatever the
arguments, the backend, the state and the text of the success. -/
theorem failure_differs_from_success {σ τ : Type} (B : Backend σ) (B2 : Backend τ) :
    (∀ (c c2 : ToolCall) (s : σ) (s2 : τ) (e : GoError) (t : String),
      c.tool = c2.tool →
      (B.perform c.invocation s).1.2 = some e →
      (B2.perform c2.invocation s2).1 = (t, none) →
      (callTool B c s).1 ≠ (callTool B2 c2 s2).1) ∧
    (∀ (k : PromptName) (a a2 : Prompt) (s : σ) (s2 : τ) (e : GoError) (t : String),
      (B.perform (k.invocation a.Symbol) s).1.2 = some e →
      (B2.perform (k.invocation a2.Symbol) s2).1 = (t, none) →
      (callPrompt B k a s).1 ≠ (callPrompt B2 k a2 s2).1) := by
  constructor
  · intro c c2 s s2 e t _ hf hs
    rcases callTool_cases B c s with ⟨e1, _, h2⟩ | ⟨h1, _⟩
    · rcases callTool_cases B2 c2 s2 with ⟨e3, h3, _⟩ | ⟨_, h4⟩
      · rw [hs] at h3; cases h3
      · rw [h2, h4]; intro hc; cases hc
    · rw [h1] at hf; cases hf
  · intro k a a2 s s2 e t hf hs
    rcases callPrompt_cases B k a s with ⟨e1, _, h2⟩ | ⟨h1, _⟩
    · rcases callPrompt_cases B2 k a2 s2 with ⟨e3, h3, _⟩ | ⟨_, d, hd, h4⟩
      · rw [hs] at h3; cases h3
      · rw [h2, h4]
        intro hc
        simp only [NewPromptResponse, Prod.mk.injEq, Option.some.injEq,
          PromptResponse.mk.injEq] at hc
        exact hd hc.1.1.symm
    · rw [h1] at hf; cases hf

theorem failure_differs_from_success_witness :
    (callPrompt (replyBackend ("", some ⟨"boom"⟩)) .read_definition ⟨"F"⟩ ()).1 ≠
      (callPrompt (replyBackend ("There is an error reading the definition for F", none))
        .read_definition ⟨"F"⟩ ()).1 :=
  (failure_differs_from_success (replyBackend ("", some ⟨"boom"⟩))
    (replyBackend ("There is an error reading the definition for F", none))).2
    .read_definition ⟨"F"⟩ ⟨"F"⟩ () () ⟨"boom"⟩ "There is an error reading the definition for F"
    rfl rfl

/-- C9: when the underlying operation fails, the response of a prompt handler is
fixed by the prompt and the symbol argument: its description is
`Error response` and its one message, of role user, has as text the fixed
sentence of the prompt followed by the symbol.  So any two failures, whatever
their errors, backends and states, give identical responses. -/
theorem prompt_failure_hides_cause {σ : Type} (B : Backend σ) (k : PromptName)
    (argument : Prompt) (s : σ) (e : GoError)
    (h : (B.perform (k.invocation argument.Symbol) s).1.2 = some e) :
    (callPrompt B k argument s).1 =
      (some { Description := "Error response",
              Messages := [{ Content := { kind := ContentType.ContentTypeText,
                                          TextContent := some (k.errorSentence ++ argument.Symbol) },
                             Role := Role.RoleUser }] }, none) ∧
    (∀ (τ : Type) (B2 : Backend τ) (s2 : τ) (e2 : GoError),
      (B2.perform (k.invocation argument.Symbol) s2).1.2 = some e2 →
      (callPrompt B2 k argument s2).1 = (callPrompt B k argument s).1) := by
  have key : ∀ (τ : Type) (B2 : Backend τ) (s2 : τ) (e2 : GoError),
      (B2.perform (k.invocation argument.Symbol) s2).1.2 = some e2 →
      (callPrompt B2 k argument s2).1 =
        (some (NewPromptResponse "Error response"
          [NewPromptMessage (NewTextContent (k.errorSentence ++ argument.Symbol))
            Role.RoleUser]), none) := by
    intro τ B2 s2 e2 h2
    rcases callPrompt_cases B2 k argument s2 with ⟨e3, _, h4⟩ | ⟨h3, _⟩
    · rw [h4]
    · rw [h3] at h2; cases h2
  refine ⟨key σ B s e h, ?_⟩
  intro τ B2 s2 e2 h2
  rw [key τ B2 s2 e2 h2, key σ B s e h]

theorem prompt_failure_hides_cause_witness :
    (callPrompt (replyBackend ("", some ⟨"no such file"⟩)) .get_codelens ⟨"a.go"⟩ ()).1 =
      (some { Description := "Error response",
              Messages := [{ Content := { kind := ContentType.ContentTypeText,
                                          TextContent :=
                                            some "There is an error getting codelens for file a.go" },
                             Role := Role.RoleUser }] }, none) :=
  (prompt_failure_hides_cause (replyBackend ("", some ⟨"no such file"⟩)) .get_codelens ⟨"a.go"⟩ ()
    ⟨"no such file"⟩ rfl).1


/-- C5: when every registration call made succeeds, `registerTools` returns nil
after exactly six registrations, one under each of the pairwise distinct names
`apply_text_edit`, `read_definition`, `find_references`, `get_diagnostics`,
`get_codelens`, `execute_codelens`, and `registerPrompts` returns nil after
exactly four registrations, one prompt for each of `read_definition`,
`find_references`, `get_codelens` and `get_diagnostics`, under the names
`read-definition`, `find-references`, `get-codelens`, `get-diagnostics`. -/
theorem registration_registers_all {ρ σ : Type} (S : Server ρ σ) (B : Backend σ) (m m2 : ρ)
    (hT : ∀ a ∈ (registerTools (traced S) B (m, [])).2.2, a.outcome = none)
    (hP : ∀ a ∈ (registerPrompts (traced S) B (m2, [])).2.2, a.outcome = none) :
    (registerTools S B m).1 = none ∧
    (registerTools (traced S) B (m, [])).2.2.map Attempt.registration = toolPlan B ∧
    (registerTools (traced S) B (m, [])).2.2.map (fun a => a.registration.name) =
      ["apply_text_edit", "read_definition", "find_references", "get_diagnostics",
        "get_codelens", "execute_codelens"] ∧
    ["apply_text_edit", "read_definition", "find_references", "get_diagnostics",
      "get_codelens", "execute_codelens"].Nodup ∧
    (registerPrompts S B m2).1 = none ∧
    (registerPrompts (traced S) B (m2, [])).2.2.map Attempt.registration =
      [ Registration.prompt "read-definition" "call the read_definition tool TODO"
          (callPrompt B .read_definition),
        Registration.prompt "find-references" "call the find_references tool TODO"
          (callPrompt B .find_references),
        Registration.prompt "get-codelens" "call the get_codelens tool TODO"
          (callPrompt B .get_codelens),
        Registration.prompt "get-diagnostics" "call the get_diagnostics tool TODO"
          (callPrompt B .get_diagnostics) ] := by
  have hTn := (run_traced_fail_fast S (toolPlan B) m).2.1 hT
  have hPn := (run_traced_fail_fast S (promptPlan B) m2).2.1 hP
  have hTm := ((run_traced_fail_fast S (toolPlan B) m).1.1 hTn).1
  have hPm := ((run_traced_fail_fast S (promptPlan B) m2).1.1 hPn).1
  refine ⟨?_, hTm, ?_, by decide, ?_, hPm⟩
  · rw [registerTools_eq_run, ← (run_traced_faithful S (toolPlan B) m []).1]; exact hTn
  · have := congrArg (List.map Registration.name) hTm
    rw [List.map_map] at this
    exact this
  · rw [registerPrompts_eq_run, ← (run_traced_faithful S (promptPlan B) m2 []).1]; exact hPn

theorem registration_registers_all_witness :
    (registerTools (refusingServer Unit "" ⟨"refused"⟩) (replyBackend ("", none)) ()).1 = none ∧
    (registerTools (traced (refusingServer Unit "" ⟨"refused"⟩)) (replyBackend ("", none))
        ((), [])).2.2.map (fun a => a.registration.name) =
      ["apply_text_edit", "read_definition", "find_references", "get_diagnostics",
        "get_codelens", "execute_codelens"] ∧
    (registerPrompts (refusingServer Unit "" ⟨"refused"⟩) (replyBackend ("", none)) ()).1 = none :=
  have h := registration_registers_all (refusingServer Unit "" ⟨"refused"⟩)
    (replyBackend ("", none)) () () (by decide) (by decide)
  ⟨h.1, h.2.2.1, h.2.2.2.2.1⟩

/-- C10: registration is fail-fast.  `registerTools` returns nil exactly when all
six registration calls are made and succeed, and likewise `registerPrompts` with
its four.  If the call at position `k` of the calls made fails with `e`, the
function returns the error with text `failed to register tool: ` followed by the
text of `e` (for prompts `failed to register `, the prompt name, ` prompt: `, then
the text of `e`), the calls made are exactly the first `k + 1` of the source
order, all calls before position `k` succeeded, and no later call is made.  The
log does not change what the functions return.  Conversely the functions return
nil whenever every call they made succeeded, so a returned error always comes
from a call that was made and failed. -/
theorem registration_fail_fast {ρ σ : Type} (S : Server ρ σ) (B : Backend σ) (m : ρ) :
    ((registerTools (traced S) B (m, [])).1 = none ↔
      ((registerTools (traced S) B (m, [])).2.2.map Attempt.registration = toolPlan B ∧
        ∀ a ∈ (registerTools (traced S) B (m, [])).2.2, a.outcome = none)) ∧
    (∀ (k : Nat) (a : Attempt σ) (e : GoError),
      (registerTools (traced S) B (m, [])).2.2[k]? = some a → a.outcome = some e →
      (registerTools (traced S) B (m, [])).1 = some ⟨"failed to register tool: " ++ e.msg⟩ ∧
      (registerTools (traced S) B (m, [])).2.2.map Attempt.registration =
        (toolPlan B).take (k + 1) ∧
      (registerTools (traced S) B (m, [])).2.2.length = k + 1 ∧
      ∀ (j : Nat) (b : Attempt σ), j < k →
        (registerTools (traced S) B (m, [])).2.2[j]? = some b → b.outcome = none) ∧
    ((registerPrompts (traced S) B (m, [])).1 = none ↔
      ((registerPrompts (traced S) B (m, [])).2.2.map Attempt.registration = promptPlan B ∧
        ∀ a ∈ (registerPrompts (traced S) B (m, [])).2.2, a.outcome = none)) ∧
    (∀ (k : Nat) (a : Attempt σ) (e : GoError),
      (registerPrompts (traced S) B (m, [])).2.2[k]? = some a → a.outcome = some e →
      (registerPrompts (traced S) B (m, [])).1 =
        some ⟨"failed to register " ++ a.registration.name ++ " prompt: " ++ e.msg⟩ ∧
      a.registration.name ∈
        ["read-definition", "find-references", "get-codelens", "get-diagnostics"] ∧
      (registerPrompts (traced S) B (m, [])).2.2.map Attempt.registration =
        (promptPlan B).take (k + 1) ∧
      (registerPrompts (traced S) B (m, [])).2.2.length = k + 1 ∧
      ∀ (j : Nat) (b : Attempt σ), j < k →
        (registerPrompts (traced S) B (m, [])).2.2[j]? = some b → b.outcome = none) ∧
    (registerTools (traced S) B (m, [])).1 = (registerTools S B m).1 ∧
    (registerTools (traced S) B (m, [])).2.1 = (registerTools S B m).2 ∧
    (registerPrompts (traced S) B (m, [])).1 = (registerPrompts S B m).1 ∧
    (registerPrompts (traced S) B (m, [])).2.1 = (registerPrompts S B m).2 ∧
    ((registerTools (traced S) B (m, [])).1 = none ↔
      ∀ a ∈ (registerTools (traced S) B (m, [])).2.2, a.outcome = none) ∧
    ((registerPrompts (traced S) B (m, [])).1 = none ↔
      ∀ a ∈ (registerPrompts (traced S) B (m, [])).2.2, a.outcome = none) ∧
    (∀ x : GoError, (registerTools (traced S) B (m, [])).1 = some x →
      ∃ (k : Nat) (a : Attempt σ) (e : GoError),
        (registerTools (traced S) B (m, [])).2.2[k]? = some a ∧ a.outcome = some e ∧
        x = ⟨"failed to register tool: " ++ e.msg⟩ ∧
        (registerTools (traced S) B (m, [])).2.2.length = k + 1) ∧
    (∀ x : GoError, (registerPrompts (traced S) B (m, [])).1 = some x →
      ∃ (k : Nat) (a : Attempt σ) (e : GoError),
        (registerPrompts (traced S) B (m, [])).2.2[k]? = some a ∧ a.outcome = some e ∧
        x = ⟨"failed to register " ++ a.registration.name ++ " prompt: " ++ e.msg⟩ ∧
        (registerPrompts (traced S) B (m, [])).2.2.length = k + 1) ∧
    (registerTools (traced S) B (m, [])).2.2.map Attempt.registration <+: toolPlan B ∧
    (registerPrompts (traced S) B (m, [])).2.2.map Attempt.registration <+: promptPlan B := by
  simp only [registerTools_eq_run, registerPrompts_eq_run]
  obtain ⟨t1, t2, t3⟩ := run_traced_fail_fast S (toolPlan B) m
  obtain ⟨p1, p2, p3⟩ := run_traced_fail_fast S (promptPlan B) m
  have tk : ∀ (k : Nat) (a : Attempt σ) (e : GoError),
      (runRegistrations (traced S) (toolPlan B) (m, [])).2.2[k]? = some a → a.outcome = some e →
      (runRegistrations (traced S) (toolPlan B) (m, [])).1 =
        some ⟨"failed to register tool: " ++ e.msg⟩ ∧
      (runRegistrations (traced S) (toolPlan B) (m, [])).2.2.map Attempt.registration =
        (toolPlan B).take (k + 1) ∧
      (runRegistrations (traced S) (toolPlan B) (m, [])).2.2.length = k + 1 ∧
      ∀ (j : Nat) (b : Attempt σ), j < k →
        (runRegistrations (traced S) (toolPlan B) (m, [])).2.2[j]? = some b →
        b.outcome = none := by
    intro k a e hk he
    obtain ⟨h1, h2, h3, h4⟩ := t3 k a e hk he
    have hmem : a.registration ∈ toolPlan B := by
      have h5 : a.registration ∈
          (runRegistrations (traced S) (toolPlan B) (m, [])).2.2.map Attempt.registration :=
        List.mem_map_of_mem _ (List.getElem?_mem hk)
      rw [h2] at h5
      exact List.mem_of_mem_take h5
    rw [toolPlan_failureLead B _ hmem] at h1
    exact ⟨h1, h2, h3, h4⟩
  have pk : ∀ (k : Nat) (a : Attempt σ) (e : GoError),
      (runRegistrations (traced S) (promptPlan B) (m, [])).2.2[k]? = some a →
      a.outcome = some e →
      (runRegistrations (traced S) (promptPlan B) (m, [])).1 =
        some ⟨"failed to register " ++ a.registration.name ++ " prompt: " ++ e.msg⟩ ∧
      a.registration.name ∈
        ["read-definition", "find-references", "get-codelens", "get-diagnostics"] ∧
      (runRegistrations (traced S) (promptPlan B) (m, [])).2.2.map Attempt.registration =
        (promptPlan B).take (k + 1) ∧
      (runRegistrations (traced S) (promptPlan B) (m, [])).2.2.length = k + 1 ∧
      ∀ (j : Nat) (b : Attempt σ), j < k →
        (runRegistrations (traced S) (promptPlan B) (m, [])).2.2[j]? = some b →
        b.outcome = none := by
    intro k a e hk he
    obtain ⟨h1, h2, h3, h4⟩ := p3 k a e hk he
    have hmem : a.registration ∈ promptPlan B := by
      have h5 : a.registration ∈
          (runRegistrations (traced S) (promptPlan B) (m, [])).2.2.map Attempt.registration :=
        List.mem_map_of_mem _ (List.getElem?_mem hk)
      rw [h2] at h5
      exact List.mem_of_mem_take h5
    rw [(promptPlan_failureLead B _ hmem).1] at h1
    exact ⟨h1, (promptPlan_failureLead B _ hmem).2, h2, h3, h4⟩
  refine ⟨t1, tk, p1, pk, (run_traced_faithful S _ m []).1, (run_traced_faithful S _ m []).2,
    (run_traced_faithful S _ m []).1, (run_traced_faithful S _ m []).2,
    ⟨fun h => (t1.1 h).2, t2⟩, ⟨fun h => (p1.1 h).2, p2⟩, ?_, ?_, ?_, ?_⟩
  · intro x hx
    obtain ⟨k, a, e, hk, he⟩ := run_traced_error_has_cause S (toolPlan B) m x hx
    obtain ⟨h1, _, h3, _⟩ := tk k a e hk he
    rw [hx] at h1
    exact ⟨k, a, e, hk, he, Option.some.inj h1, h3⟩
  · intro x hx
    obtain ⟨k, a, e, hk, he⟩ := run_traced_error_has_cause S (promptPlan B) m x hx
    obtain ⟨h1, _, _, h3, _⟩ := pk k a e hk he
    rw [hx] at h1
    exact ⟨k, a, e, hk, he, Option.some.inj h1, h3⟩
  · obtain ⟨att, h1, h2, _, _⟩ := run_traced_shape S (toolPlan B) m []
    rw [List.nil_append] at h1
    rw [h1]; exact h2
  · obtain ⟨att, h1, h2, _, _⟩ := run_traced_shape S (promptPlan B) m []
    rw [List.nil_append] at h1
    rw [h1]; exact h2

theorem registration_fail_fast_witness :
    (registerTools (traced (refusingServer Unit "find_references" ⟨"duplicate name"⟩))
        (replyBackend ("", none)) ((), [])).1 =
      some ⟨"failed to register tool: duplicate name"⟩ ∧
    (registerTools (traced (refusingServer Unit "find_references" ⟨"duplicate name"⟩))
        (replyBackend ("", none)) ((), [])).2.2.length = 3 :=
  have h := (registration_fail_fast (refusingServer Unit "find_references" ⟨"duplicate name"⟩)
    (replyBackend ("", none)) ()).2.1 2
    ⟨.tool "find_references"
      "Find all usages and references of a symbol throughout the codebase. Returns a list of all files and locations where the symbol appears."
      (.onFindReferencesArgs (findReferencesHandler (replyBackend ("", none)))),
      some ⟨"duplicate name"⟩⟩
    ⟨"duplicate name"⟩ rfl rfl
  ⟨h.1, h.2.2.1⟩

/-- C8: for an edit list that contains two edits, at different positions of the
list, whose ranges overlap, the `apply_text_edit` handler over the edit engine
fails: the engine returns its `InvalidEditRange` error, the handler returns a
nil response and that error behind `Failed to apply edits: `, and the workspace,
so the content of the target file, is the same after the call as before. -/
theorem overlapping_edits_rejected (E : EngineErrors) (B : Backend Workspace)
    (args : ApplyTextEditArgs) (w : Workspace) (i j : Nat)
    (hi : i < args.Edits.length) (hj : j < args.Edits.length) (hij : i ≠ j)
    (hov : (args.Edits.get ⟨i, hi⟩).range.overlaps (args.Edits.get ⟨j, hj⟩).range = true) :
    ((withEditEngine E B).perform (ToolCall.apply_text_edit args).invocation w).1.2 =
      some E.InvalidEditRange ∧
    (callTool (withEditEngine E B) (.apply_text_edit args) w).1 =
      (none, some ⟨"Failed to apply edits: " ++ E.InvalidEditRange.msg⟩) ∧
    (callTool (withEditEngine E B) (.apply_text_edit args) w).2 = w ∧
    (callTool (withEditEngine E B) (.apply_text_edit args) w).2.files.lookup args.FilePath =
      w.files.lookup args.FilePath := by
  have hov2 := hasOverlap_of_ne args.Edits i j hi hj hij hov
  have hrun : (withEditEngine E B).ApplyTextEdits args.FilePath args.Edits w =
      (("", some E.InvalidEditRange), w) := by
    simp only [withEditEngine, ApplyTextEdits, hov2, if_true]
  have hcall : callTool (withEditEngine E B) (.apply_text_edit args) w =
      ((none, some ⟨"Failed to apply edits: " ++ E.InvalidEditRange.msg⟩), w) := by
    simp only [callTool, applyTextEditHandler, hrun, Errorf]
  refine ⟨?_, ?_, ?_, ?_⟩
  · simp only [ToolCall.invocation, Backend.perform, hrun]
  · rw [hcall]
  · rw [hcall]
  · rw [hcall]

theorem overlapping_edits_rejected_witness :
    (callTool (withEditEngine ⟨⟨"invalid edit range"⟩, ⟨"file not found"⟩⟩ (idleBackend ("", none)))
        (.apply_text_edit ⟨"a.go", overlappingEdits⟩) sampleWorkspace).1 =
      (none, some ⟨"Failed to apply edits: invalid edit range"⟩) ∧
    (callTool (withEditEngine ⟨⟨"invalid edit range"⟩, ⟨"file not found"⟩⟩ (idleBackend ("", none)))
        (.apply_text_edit ⟨"a.go", overlappingEdits⟩) sampleWorkspace).2 = sampleWorkspace ∧
    (callTool (withEditEngine ⟨⟨"invalid edit range"⟩, ⟨"file not found"⟩⟩ (idleBackend ("", none)))
        (.apply_text_edit ⟨"a.go", replaceLineOne⟩) sampleWorkspace).2.files =
      [("a.go", "package a\nvar y = 2")] :=
  have h := overlapping_edits_rejected ⟨⟨"invalid edit range"⟩, ⟨"file not found"⟩⟩
    (idleBackend ("", none)) ⟨"a.go", overlappingEdits⟩ sampleWorkspace 0 1
    (by decide) (by decide) (by decide) (by decide)
  have h2 : (callTool
      (withEditEngine ⟨⟨"invalid edit range"⟩, ⟨"file not found"⟩⟩ (idleBackend ("", none)))
      (.apply_text_edit ⟨"a.go", replaceLineOne⟩) sampleWorkspace).2 =
      (ApplyTextEdits ⟨⟨"invalid edit range"⟩, ⟨"file not found"⟩⟩ "a.go" replaceLineOne
        sampleWorkspace).2 := rfl
  ⟨h.2.1, h.2.2.1, by rw [h2, ApplyTextEdits_accepts_sample]⟩

end McpLanguageServer
